import Mathlib

/-!
Shallow embedding of the hotel record resolution and update pipeline of the
saavi backend (src/routes/my-hotels.ts and the changePrice handler of
src/routes/auth.ts, pasted into src/routes/auth.ts here).

The document store is a list of hotel records; Mongoose queries are embedded
as first-match searches over that list.  A Mongoose query that filters on
the `_id` path casts the supplied string to an ObjectId and throws a
CastError when the string is malformed; this is embedded by the
`isValidObjectId` test guarding the `_id`-keyed branches, with the throwing
branch taken when the test fails (mirroring the try/catch structure of each
handler).  The media host (cloudinary upload of one data URI per file) is an
oracle `Upload` from files to `Option String`; `none` embeds a rejected
upload promise, which `Promise.all` turns into a failure of the whole batch.
-/

namespace Saavi

/-- An in-memory multipart image file (content and mimetype are opaque here;
the route turns them into a single data URI handed to the media host). -/
abbrev ImageFile := String

/-- The media-host oracle: result of uploading one file, `none` on failure. -/
abbrev Upload := ImageFile → Option String

/-- A persisted hotel document (fields of the HotelType / mongoose schema
that the pipeline reads or writes; `userId` is the owner identifier used for
scoping, `hotelId` the client-supplied business key, `mongoId` the
system-generated `_id` primary key). -/
structure HotelRecord where
  mongoId : String
  hotelId : String
  userId : String
  name : String
  city : String
  country : String
  description : String
  type : String
  facilities : List String
  pricePerNight : Int
  imageUrls : List String
  lastUpdated : Nat
deriving DecidableEq, Repr

/-- The document store: the hotels collection. -/
abbrev Store := List HotelRecord

/-- A request body for the two update routes (`req.body` as a partial
HotelType: fields absent from the multipart form are absent from the $set /
spread; key fields are not patched by these routes). -/
structure HotelPatch where
  name : Option String := none
  city : Option String := none
  country : Option String := none
  description : Option String := none
  type : Option String := none
  facilities : Option (List String) := none
  pricePerNight : Option Int := none
  imageUrls : Option (List String) := none
deriving DecidableEq, Repr

/-- Shallow merge of a patch onto a record: `{...record, ...patch}` /
mongoose `$set` of the body fields present. -/
def applyPatch (r : HotelRecord) (p : HotelPatch) : HotelRecord :=
  { r with
    name := p.name.getD r.name
    city := p.city.getD r.city
    country := p.country.getD r.country
    description := p.description.getD r.description
    type := p.type.getD r.type
    facilities := p.facilities.getD r.facilities
    pricePerNight := p.pricePerNight.getD r.pricePerNight
    imageUrls := p.imageUrls.getD r.imageUrls }

/-- Hexadecimal digit test for ObjectId strings. -/
def isHexChar (c : Char) : Bool :=
  c.isDigit || (Char.ofNat 97 ≤ c && c ≤ Char.ofNat 102) ||
    (Char.ofNat 65 ≤ c && c ≤ Char.ofNat 70)

/-- Mongoose ObjectId cast acceptance: a 24-character hex string or any
12-character string; on any other string a query filtering on `_id` throws
a CastError. -/
def isValidObjectId (s : String) : Bool :=
  (s.length == 24 && s.data.all isHexChar) || s.length == 12

/-- `Model.findOneAndUpdate(filter, update)`: rewrite the first record
matching `pred` with `f`, returning the (old, new) pair of that record and
the rewritten store; `(none, store)` when nothing matches.  A caller passing
`{new: true}` reads the second component of the pair, otherwise the first. -/
def findOneAndUpdate (pred : HotelRecord → Bool) (f : HotelRecord → HotelRecord) :
    Store → Option (HotelRecord × HotelRecord) × Store
  | [] => (none, [])
  | r :: rs =>
    if pred r then (some (r, f r), f r :: rs)
    else
      let rest := findOneAndUpdate pred f rs
      (rest.1, r :: rest.2)

/-- `document.save()` after mutating a fetched document: write the document
back over the stored record bearing the same `_id`. -/
def saveDoc (h : HotelRecord) : Store → Store
  | [] => []
  | r :: rs => if r.mongoId == h.mongoId then h :: rs else r :: saveDoc h rs

/-- `uploadImages`: upload every file (cloudinary fan-out joined by
`Promise.all`): one URL per file in input order, the whole batch failing as
soon as any single upload fails. -/
def uploadImages (upl : Upload) : List ImageFile → Option (List String)
  | [] => some []
  | f :: fs =>
    match upl f, uploadImages upl fs with
    | some url, some urls => some (url :: urls)
    | _, _ => none

/-- Outcome sent by a handler. -/
inductive HandlerResult where
  /-- `res.status(201)` with the record as body. -/
  | created (h : HotelRecord)
  /-- `res.status(200)` with the record as body. -/
  | ok (h : HotelRecord)
  /-- `res.status(200).send()` with no body (changePrice). -/
  | okNoBody
  /-- `res.status(404)` hotel not found. -/
  | notFound
  /-- `res.status(400)` hotel not found (changePrice). -/
  | badRequest
  /-- `res.status(500)` generic failure from a catch block. -/
  | serverError
deriving DecidableEq, Repr

/-- Body of POST /add-hotel (`req.body` as HotelType; the route itself never
writes `userId`, so any owner identifier on the new record is whatever the
request body carried). -/
structure NewHotelBody where
  hotelId : String
  userId : String
  name : String
  city : String
  country : String
  description : String
  type : String
  facilities : List String
  pricePerNight : Int
deriving DecidableEq, Repr

/-- The document assembled by POST /add-hotel just before `hotel.save()`:
body fields plus uploaded image URLs, `lastUpdated` = now, and the
system-generated `_id`. -/
def mkHotel (body : NewHotelBody) (imageUrls : List String) (now : Nat)
    (freshId : String) : HotelRecord :=
  { mongoId := freshId
    hotelId := body.hotelId
    userId := body.userId
    name := body.name
    city := body.city
    country := body.country
    description := body.description
    type := body.type
    facilities := body.facilities
    pricePerNight := body.pricePerNight
    imageUrls := imageUrls
    lastUpdated := now }

/-- POST /add-hotel: upload all image files, assemble the record, save it.
A failed upload rejects `Promise.all`, control reaches the catch block, and
nothing is persisted (the `new Hotel(...)` / `save` never run). -/
def addHotel (upl : Upload) (body : NewHotelBody) (imageFiles : List ImageFile)
    (now : Nat) (freshId : String) (s : Store) : Store × HandlerResult :=
  match uploadImages upl imageFiles with
  | none => (s, .serverError)
  | some imageUrls =>
    let hotel := mkHotel body imageUrls now freshId
    (s ++ [hotel], .created hotel)

/-- GET /:id: first `findOne({_id, userId})` — a malformed id makes this
throw straight into the route's only catch block (500) — then, when that
returns null, `findOne({hotelId, userId})`; 404 when both return null. -/
def getHotel (id userId : String) (s : Store) : HandlerResult :=
  if isValidObjectId id then
    match s.find? (fun r => r.mongoId == id && r.userId == userId) with
    | some hotel => .ok hotel
    | none =>
      match s.find? (fun r => r.hotelId == id && r.userId == userId) with
      | some hotel => .ok hotel
      | none => .notFound
  else .serverError

/-- First phase of PUT /:hotelId: `findOneAndUpdate` keyed on `{_id, userId}`
inside a try whose catch (CastError on a malformed `_id`) retries keyed on
`{hotelId, userId}`; the update document is the request body with
`lastUpdated` set to now, applied with `{new: true}`.  Note that a
well-formed id that merely matches nothing returns null without throwing, so
the business-key retry happens only for malformed ids. -/
def updateHotelAPhase1 (hotelId userId : String) (patch : HotelPatch)
    (now : Nat) (s : Store) : Option (HotelRecord × HotelRecord) × Store :=
  if isValidObjectId hotelId then
    findOneAndUpdate (fun r => r.mongoId == hotelId && r.userId == userId)
      (fun r => { applyPatch r patch with lastUpdated := now }) s
  else
    findOneAndUpdate (fun r => r.hotelId == hotelId && r.userId == userId)
      (fun r => { applyPatch r patch with lastUpdated := now }) s

/-- PUT /:hotelId (Policy A): persist the body via `findOneAndUpdate`
(phase 1), 404 on null; then upload the request's image files — a failure
here throws into the catch block (500) with phase 1 already persisted — and
on success overwrite `imageUrls` with the fresh URLs followed by the body's
`imageUrls || []`, saving the document again. -/
def updateHotelA (upl : Upload) (hotelId userId : String) (patch : HotelPatch)
    (imageFiles : List ImageFile) (now : Nat) (s : Store) :
    Store × HandlerResult :=
  let phase1 := updateHotelAPhase1 hotelId userId patch now s
  match phase1.1 with
  | none => (phase1.2, .notFound)
  | some rr =>
    match uploadImages upl imageFiles with
    | none => (phase1.2, .serverError)
    | some updatedImageUrls =>
      let hotel := { rr.2 with imageUrls := updatedImageUrls ++ patch.imageUrls.getD [] }
      (saveDoc hotel phase1.2, .created hotel)

/-- Resolution step of PUT /update-hotel/:hotelId: `findOne({_id})` inside a
try whose catch (CastError on a malformed id) retries `findOne({hotelId})`;
no owner scoping, and no business-key retry when a well-formed `_id` query
merely returns null. -/
def resolveB (hotelId : String) (s : Store) : Option HotelRecord :=
  if isValidObjectId hotelId then
    s.find? (fun r => r.mongoId == hotelId)
  else
    s.find? (fun r => r.hotelId == hotelId)

/-- Image step of PUT /update-hotel/:hotelId: keep the existing document's
`imageUrls` when no file was sent, else append the freshly uploaded URLs to
them; a failed upload fails the step (throw to the catch block). -/
def updateHotelBImageUrls (upl : Upload) (existingHotel : HotelRecord)
    (imageFiles : List ImageFile) : Option (List String) :=
  if imageFiles.isEmpty then some existingHotel.imageUrls
  else (uploadImages upl imageFiles).map (fun urls => existingHotel.imageUrls ++ urls)

/-- The key test PUT /update-hotel/:hotelId re-derives before persisting:
`queryField = existingHotel._id.toString() === hotelId ? '_id' : 'hotelId'`,
then the persistence update filters on `{[queryField]: hotelId}`. -/
def matchesKeyB (existingHotel : HotelRecord) (hotelId : String)
    (r : HotelRecord) : Bool :=
  if existingHotel.mongoId == hotelId then r.mongoId == hotelId
  else r.hotelId == hotelId

/-- PUT /update-hotel/:hotelId (Policy B): resolve from the store as of the
read (`s₁`), 404 on no match; compute the image URL list (500 on upload
failure, nothing persisted yet); build the merged document
`{...existing, ...body, imageUrls, lastUpdated: now}`; persist with
`findOneAndUpdate({[queryField]: hotelId}, merged, {new: true})` against the
store as of the write (`s₂`, allowing a concurrent deletion between the two
round-trips), answering 404 again when that second query matches nothing. -/
def updateHotelB (upl : Upload) (hotelId : String) (patch : HotelPatch)
    (imageFiles : List ImageFile) (now : Nat) (s₁ s₂ : Store) :
    Store × HandlerResult :=
  match resolveB hotelId s₁ with
  | none => (s₂, .notFound)
  | some existingHotel =>
    match updateHotelBImageUrls upl existingHotel imageFiles with
    | none => (s₂, .serverError)
    | some updatedImageUrls =>
      let updatedHotel := { applyPatch existingHotel patch with
                            imageUrls := updatedImageUrls
                            lastUpdated := now }
      let written := findOneAndUpdate (matchesKeyB existingHotel hotelId)
        (fun _ => updatedHotel) s₂
      match written.1 with
      | none => (written.2, .notFound)
      | some rr => (written.2, .ok rr.2)

/-- POST /changePrice (auth.ts): `findOneAndUpdate({userId: hotelId},
{pricePerNight: newPrice})` — the filter matches the owner field against the
supplied hotelId — answering 400 on null; without `{new: true}` the returned
document is the pre-update one, so the trailing `save()` has no modified
paths and persists nothing further. -/
def changePrice (hotelId : String) (newPrice : Int) (s : Store) :
    Store × HandlerResult :=
  let written := findOneAndUpdate (fun r => r.userId == hotelId)
    (fun r => { r with pricePerNight := newPrice }) s
  match written.1 with
  | none => (written.2, .badRequest)
  | some _ => (written.2, .okNoBody)

/-- Multer configuration of POST /add-hotel: `upload.array("imageFiles", 6)`. -/
def addHotelMaxImageFiles : Option Nat := some 6

/-- Multer configuration of PUT /:hotelId: `upload.array("imageFiles")`,
with no maxCount argument. -/
def updateHotelAMaxImageFiles : Option Nat := none

/-- Multer configuration of PUT /update-hotel/:hotelId:
`upload.array("imageFiles", 6)`. -/
def updateHotelBMaxImageFiles : Option Nat := some 6

/-- Whether multer lets a request carrying `n` files of the field through to
the handler: at most maxCount when one is configured (beyond it the request
fails with LIMIT_UNEXPECTED_FILE), unbounded otherwise. -/
def acceptsFileCount (maxCount : Option Nat) (n : Nat) : Bool :=
  match maxCount with
  | some m => decide (n ≤ m)
  | none => true

end Saavi

namespace Saavi

def oid1 : String := "aaaaaaaaaaaaaaaaaaaaaaaa"

def sampleHotel : HotelRecord :=
  { mongoId := oid1
    hotelId := "h1"
    userId := "u1"
    name := "n"
    city := "c"
    country := "co"
    description := "d"
    type := "t"
    facilities := ["wifi"]
    pricePerNight := 100
    imageUrls := ["old"]
    lastUpdated := 0 }

def uploadOk : Upload := fun f => some ("url-" ++ f)

def uploadFail : Upload := fun _ => none

def patchPrice : HotelPatch := { pricePerNight := some 120 }

def sampleBody : NewHotelBody :=
  { hotelId := "h1"
    userId := "u1"
    name := "n"
    city := "c"
    country := "co"
    description := "d"
    type := "t"
    facilities := ["wifi"]
    pricePerNight := 100 }

def sampleBody12 : NewHotelBody := { sampleBody with hotelId := "hhhhhhhhhhhh" }

def patchInject : HotelPatch :=
  { pricePerNight := some 120, imageUrls := some ["inj"] }

def sampleDecoy : HotelRecord :=
  { sampleHotel with mongoId := "u1", hotelId := "u1", userId := "u2" }

/-- A store in which no record matches the filter is returned unchanged by
`findOneAndUpdate`, with a null result. -/
theorem findOneAndUpdate_none (pred : HotelRecord → Bool) (f : HotelRecord → HotelRecord)
    (s : Store) (h : ∀ r ∈ s, pred r = false) :
    findOneAndUpdate pred f s = (none, s) := by
  induction s with
  | nil => rfl
  | cons r rs ih =>
    have hr : pred r = false := h r (List.mem_cons_self r rs)
    have hrs := ih (fun x hx => h x (List.mem_cons_of_mem r hx))
    simp [findOneAndUpdate, hr, hrs]

/-- A successful `findOneAndUpdate` splits the store around the first record
matching the filter: everything before it fails the filter, it is rewritten
in place by `f`, and the rest is untouched. -/
theorem findOneAndUpdate_some (pred : HotelRecord → Bool) (f : HotelRecord → HotelRecord) :
    ∀ (s s' : Store) (rr : HotelRecord × HotelRecord),
      findOneAndUpdate pred f s = (some rr, s') →
      ∃ pre post, s = pre ++ rr.1 :: post ∧ pred rr.1 = true ∧
        (∀ x ∈ pre, pred x = false) ∧ rr.2 = f rr.1 ∧ s' = pre ++ f rr.1 :: post
  | [], s', rr, h => by simp [findOneAndUpdate] at h
  | r :: rs, s', rr, h => by
    by_cases hp : pred r = true
    · rw [findOneAndUpdate, if_pos hp] at h
      injection h with h1 h2
      injection h1 with h1
      exact ⟨[], rs, by simp [← h1], by simp [← h1, hp], by simp,
        by simp [← h1], by simp [← h2, ← h1]⟩
    · rw [findOneAndUpdate, if_neg hp] at h
      injection h with h1 h2
      have hEq : findOneAndUpdate pred f rs = (some rr, (findOneAndUpdate pred f rs).2) := by
        rw [← h1]
      obtain ⟨pre, post, e1, e2, e3, e4, e5⟩ :=
        findOneAndUpdate_some pred f rs (findOneAndUpdate pred f rs).2 rr hEq
      refine ⟨r :: pre, post, by simp [e1], e2, ?_, e4, by simp [← h2, e5]⟩
      intro x hx
      rcases List.mem_cons.mp hx with hx | hx
      · rw [hx]; exact Bool.of_not_eq_true hp
      · exact e3 x hx

/-- `findOneAndUpdate` keeps the length of the store. -/
theorem findOneAndUpdate_length (pred : HotelRecord → Bool)
    (f : HotelRecord → HotelRecord) (s : Store) :
    (findOneAndUpdate pred f s).2.length = s.length := by
  induction s with
  | nil => rfl
  | cons r rs ih =>
    by_cases hp : pred r = true
    · simp [findOneAndUpdate, hp]
    · simp [findOneAndUpdate, hp, ih]

/-- A record failing the filter is left in place, unchanged, by
`findOneAndUpdate`. -/
theorem findOneAndUpdate_get_of_not_pred (pred : HotelRecord → Bool)
    (f : HotelRecord → HotelRecord) :
    ∀ (s : Store) (i : Nat) (h1 : i < s.length)
      (h2 : i < (findOneAndUpdate pred f s).2.length),
      pred (s.get ⟨i, h1⟩) = false →
      (findOneAndUpdate pred f s).2.get ⟨i, h2⟩ = s.get ⟨i, h1⟩
  | r :: rs, 0, h1, h2, hp => by
    have hp' : pred r = false := hp
    simp [findOneAndUpdate, hp']
  | r :: rs, i + 1, h1, h2, hp => by
    by_cases hr : pred r = true
    · simp [findOneAndUpdate, hr]
    · have h1' : i < rs.length := Nat.lt_of_succ_lt_succ h1
      have h2'' : i < (findOneAndUpdate pred f rs).2.length := by
        rw [findOneAndUpdate_length]; exact h1'
      have := findOneAndUpdate_get_of_not_pred pred f rs i h1' h2'' hp
      simp [findOneAndUpdate, hr]
      simpa using this

/-- A per-record observation invariant under the rewriting function is
invariant under `findOneAndUpdate` across the whole store. -/
theorem findOneAndUpdate_map_invariant {α : Type} (pred : HotelRecord → Bool)
    (f : HotelRecord → HotelRecord) (g : HotelRecord → α)
    (hg : ∀ r, g (f r) = g r) (s : Store) :
    (findOneAndUpdate pred f s).2.map g = s.map g := by
  induction s with
  | nil => rfl
  | cons r rs ih =>
    by_cases hp : pred r = true
    · simp [findOneAndUpdate, hp, hg]
    · simp [findOneAndUpdate, hp, ih]

/-- A `findOneAndUpdate` keeps every record failing the filter in place,
unchanged. -/
theorem findOneAndUpdate_getElem_of_not_pred (pred : HotelRecord → Bool)
    (f : HotelRecord → HotelRecord) :
    ∀ (s : Store) (i : Nat) (r : HotelRecord), s[i]? = some r → pred r = false →
      (findOneAndUpdate pred f s).2[i]? = some r
  | [], i, r, h, hp => by simp at h
  | x :: rs, 0, r, h, hp => by
    simp at h
    subst h
    by_cases hx : pred x = true
    · rw [hx] at hp; cases hp
    · simp [findOneAndUpdate, hx]
  | x :: rs, i + 1, r, h, hp => by
    simp at h
    by_cases hx : pred x = true
    · simp [findOneAndUpdate, hx, h]
    · have := findOneAndUpdate_getElem_of_not_pred pred f rs i r h hp
      simp [findOneAndUpdate, hx]
      simpa using this

/-- When it succeeded, the first phase of PUT /:hotelId has persisted the
request body and the new `lastUpdated` onto the first record matched by
whichever key the try/catch settled on. -/
theorem updateHotelAPhase1_some (hotelId userId : String) (patch : HotelPatch)
    (now : Nat) (s : Store) (rr : HotelRecord × HotelRecord)
    (hmatch : (updateHotelAPhase1 hotelId userId patch now s).1 = some rr) :
    rr.2 = { applyPatch rr.1 patch with lastUpdated := now } ∧
    ∃ pre post, s = pre ++ rr.1 :: post ∧
      (updateHotelAPhase1 hotelId userId patch now s).2 = pre ++ rr.2 :: post := by
  rw [updateHotelAPhase1] at hmatch ⊢
  by_cases hv : isValidObjectId hotelId = true
  · rw [if_pos hv] at hmatch ⊢
    have hEq : findOneAndUpdate (fun r => r.mongoId == hotelId && r.userId == userId)
        (fun r => { applyPatch r patch with lastUpdated := now }) s =
        (some rr, (findOneAndUpdate (fun r => r.mongoId == hotelId && r.userId == userId)
          (fun r => { applyPatch r patch with lastUpdated := now }) s).2) := by
      rw [← hmatch]
    obtain ⟨pre, post, e1, e2, e3, e4, e5⟩ := findOneAndUpdate_some _ _ _ _ _ hEq
    exact ⟨e4, pre, post, e1, by rw [e5, e4]⟩
  · rw [if_neg hv] at hmatch ⊢
    have hEq : findOneAndUpdate (fun r => r.hotelId == hotelId && r.userId == userId)
        (fun r => { applyPatch r patch with lastUpdated := now }) s =
        (some rr, (findOneAndUpdate (fun r => r.hotelId == hotelId && r.userId == userId)
          (fun r => { applyPatch r patch with lastUpdated := now }) s).2) := by
      rw [← hmatch]
    obtain ⟨pre, post, e1, e2, e3, e4, e5⟩ := findOneAndUpdate_some _ _ _ _ _ hEq
    exact ⟨e4, pre, post, e1, by rw [e5, e4]⟩

/-- A batch containing a failing file makes `uploadImages` fail as a whole. -/
theorem uploadImages_eq_none (upl : Upload) :
    ∀ (imageFiles : List ImageFile), (∃ f ∈ imageFiles, upl f = none) →
      uploadImages upl imageFiles = none
  | [], h => by simp at h
  | f :: fs, h => by
    rw [uploadImages]
    rcases h with ⟨g, hg, hnone⟩
    rcases List.mem_cons.mp hg with rfl | hmem
    · rw [hnone]
    · rw [uploadImages_eq_none upl fs ⟨g, hmem, hnone⟩]
      cases upl f <;> rfl

/-- A successful `uploadImages` yields one URL per input file. -/
theorem uploadImages_length (upl : Upload) :
    ∀ (imageFiles : List ImageFile) (urls : List String),
      uploadImages upl imageFiles = some urls → urls.length = imageFiles.length
  | [], urls, h => by
    rw [uploadImages] at h
    injection h with h
    rw [← h]
  | f :: fs, urls, h => by
    rw [uploadImages] at h
    cases hf : upl f with
    | none => rw [hf] at h; cases uploadImages upl fs <;> simp at h
    | some url =>
      cases hfs : uploadImages upl fs with
      | none => rw [hf, hfs] at h; simp at h
      | some rest =>
        rw [hf, hfs] at h
        injection h with h
        rw [← h]
        simp [uploadImages_length upl fs rest hfs]

/-- A successful `uploadImages` preserves the input order: the i-th URL is
the upload of the i-th file. -/
theorem uploadImages_get (upl : Upload) :
    ∀ (imageFiles : List ImageFile) (urls : List String),
      uploadImages upl imageFiles = some urls →
      ∀ (i : Nat) (h1 : i < imageFiles.length) (h2 : i < urls.length),
        upl (imageFiles.get ⟨i, h1⟩) = some (urls.get ⟨i, h2⟩)
  | [], urls, h, i, h1, h2 => absurd h1 (by simp)
  | f :: fs, urls, h, i, h1, h2 => by
    rw [uploadImages] at h
    cases hf : upl f with
    | none => rw [hf] at h; cases uploadImages upl fs <;> simp at h
    | some url =>
      cases hfs : uploadImages upl fs with
      | none => rw [hf, hfs] at h; simp at h
      | some rest =>
        rw [hf, hfs] at h
        injection h with h
        subst h
        cases i with
        | zero => simpa using hf
        | succ i =>
          simpa using uploadImages_get upl fs rest hfs i
            (Nat.lt_of_succ_lt_succ h1) (Nat.lt_of_succ_lt_succ (by simpa using h2))

/-- `find?` searches past a block in which nothing matches. -/
theorem find?_append_none (p : HotelRecord → Bool) (l₁ l₂ : Store)
    (h : l₁.find? p = none) : (l₁ ++ l₂).find? p = l₂.find? p := by
  induction l₁ with
  | nil => rfl
  | cons r rs ih =>
    rw [List.find?] at h
    by_cases hp : p r = true
    · rw [hp] at h; simp at h
    · have hp' : p r = false := Bool.of_not_eq_true hp
      rw [hp'] at h
      simp only [List.cons_append, List.find?, hp']
      exact ih h

/-- `find?` finds nothing in a block in which nothing matches. -/
theorem find?_none_of_all (p : HotelRecord → Bool) (l : Store)
    (h : ∀ x ∈ l, p x = false) : l.find? p = none := by
  induction l with
  | nil => rfl
  | cons r rs ih =>
    have hr : p r = false := h r (List.mem_cons_self r rs)
    simp only [List.find?, hr]
    exact ih (fun x hx => h x (List.mem_cons_of_mem r hx))

/-- C1 (counterexample): a PUT /:hotelId request on an existing record with
a one-file batch whose upload fails answers 500, yet the persisted record is
not unchanged: the patch's price and the new `lastUpdated` were already
written by the first-phase `findOneAndUpdate`, falsifying the all-or-nothing
reading of the update. -/
theorem updateHotelA_mutates_despite_upload_failure :
    (updateHotelA uploadFail oid1 "u1" patchPrice ["f1"] 5 [sampleHotel]).2 =
      HandlerResult.serverError ∧
    uploadFail "f1" = none ∧
    (updateHotelA uploadFail oid1 "u1" patchPrice ["f1"] 5 [sampleHotel]).1 =
      [{ sampleHotel with pricePerNight := 120, lastUpdated := 5 }] ∧
    [{ sampleHotel with pricePerNight := 120, lastUpdated := 5 }] ≠ [sampleHotel] := by
  refine ⟨by decide, rfl, by decide, by decide⟩

/-- C1 (amended): when any file of the batch fails to upload, PUT /:hotelId
answers 500 and skips the image write, but the record matched by phase 1 has
already been overwritten in place with the patch fields and the fresh
`lastUpdated`; only that second, image-combining write is withheld. -/
theorem updateHotelA_upload_failure_persists_phase1
    (upl : Upload) (hotelId userId : String) (patch : HotelPatch)
    (imageFiles : List ImageFile) (now : Nat) (s : Store)
    (rr : HotelRecord × HotelRecord)
    (hfail : uploadImages upl imageFiles = none)
    (hmatch : (updateHotelAPhase1 hotelId userId patch now s).1 = some rr) :
    updateHotelA upl hotelId userId patch imageFiles now s =
      ((updateHotelAPhase1 hotelId userId patch now s).2, HandlerResult.serverError) ∧
    rr.2 = { applyPatch rr.1 patch with lastUpdated := now } ∧
    ∃ pre post, s = pre ++ rr.1 :: post ∧
      (updateHotelAPhase1 hotelId userId patch now s).2 = pre ++ rr.2 :: post := by
  obtain ⟨e1, pre, post, e2, e3⟩ :=
    updateHotelAPhase1_some hotelId userId patch now s rr hmatch
  refine ⟨?_, e1, pre, post, e2, e3⟩
  rw [updateHotelA, hmatch, hfail]

/-- C1 (witness): the amended statement at the concrete failing request. -/
theorem updateHotelA_upload_failure_persists_phase1_witness :
    updateHotelA uploadFail oid1 "u1" patchPrice ["f1"] 5 [sampleHotel] =
      ((updateHotelAPhase1 oid1 "u1" patchPrice 5 [sampleHotel]).2,
        HandlerResult.serverError) ∧
    ({ sampleHotel with pricePerNight := 120, lastUpdated := 5 } : HotelRecord) =
      { applyPatch sampleHotel patchPrice with lastUpdated := 5 } ∧
    ∃ pre post, [sampleHotel] = pre ++ sampleHotel :: post ∧
      (updateHotelAPhase1 oid1 "u1" patchPrice 5 [sampleHotel]).2 =
        pre ++ ({ sampleHotel with pricePerNight := 120, lastUpdated := 5 } : HotelRecord) :: post :=
  updateHotelA_upload_failure_persists_phase1 uploadFail oid1 "u1" patchPrice ["f1"] 5
    [sampleHotel] (sampleHotel, { sampleHotel with pricePerNight := 120, lastUpdated := 5 })
    (by decide) (by decide)

/-- C2 (counterexample): a PUT /:hotelId request with no new file and a body
carrying no image list succeeds and persists an empty `imageUrls`, removing
the entry "old" that was present before the call — `imageReferences` is not
monotonically non-decreasing under Policy A. -/
theorem updateHotelA_drops_existing_images :
    sampleHotel.imageUrls = ["old"] ∧
    (updateHotelA uploadOk oid1 "u1" {} [] 5 [sampleHotel]).2 =
      HandlerResult.created { sampleHotel with lastUpdated := 5, imageUrls := [] } ∧
    (updateHotelA uploadOk oid1 "u1" {} [] 5 [sampleHotel]).1 =
      [{ sampleHotel with lastUpdated := 5, imageUrls := [] }] ∧
    ("old" ∈ ({ sampleHotel with lastUpdated := 5, imageUrls := ([] : List String) } : HotelRecord).imageUrls) = False := by
  refine ⟨by decide, by decide, by decide, by simp⟩

/-- C2 (amended): on a successful Policy A update the returned and persisted
record carries exactly the freshly uploaded URLs followed by the body's
image list (`[...updatedImageUrls, ...(updatedHotel.imageUrls || [])]`):
entries present before the call survive only if the client echoed them in
the body, not unconditionally. -/
theorem updateHotelA_success_imageUrls_uploads_append_patch
    (upl : Upload) (hotelId userId : String) (patch : HotelPatch)
    (imageFiles : List ImageFile) (now : Nat) (s : Store)
    (urls : List String) (rr : HotelRecord × HotelRecord)
    (hup : uploadImages upl imageFiles = some urls)
    (hmatch : (updateHotelAPhase1 hotelId userId patch now s).1 = some rr) :
    updateHotelA upl hotelId userId patch imageFiles now s =
      (saveDoc { rr.2 with imageUrls := urls ++ patch.imageUrls.getD [] }
          (updateHotelAPhase1 hotelId userId patch now s).2,
        HandlerResult.created { rr.2 with imageUrls := urls ++ patch.imageUrls.getD [] }) := by
  rw [updateHotelA, hmatch, hup]

/-- C2 (witness): the amended statement at the concrete wiping request. -/
theorem updateHotelA_success_imageUrls_uploads_append_patch_witness :
    updateHotelA uploadOk oid1 "u1" {} [] 5 [sampleHotel] =
      ([{ sampleHotel with lastUpdated := 5, imageUrls := [] }],
        HandlerResult.created { sampleHotel with lastUpdated := 5, imageUrls := [] }) :=
  updateHotelA_success_imageUrls_uploads_append_patch uploadOk oid1 "u1" {} [] 5
    [sampleHotel] [] (sampleHotel, { sampleHotel with lastUpdated := 5 })
    (by decide) (by decide)

/-- C3 (counterexample): an identifier that is malformed as a primary key
("h1") makes the primary-key lookup of GET /:id throw into the route's only
catch block: the caller gets the generic 500, not the business-key fallback
and not 404 — even though a record whose business key is exactly "h1" is
sitting in the store for that very owner. -/
theorem getHotel_malformed_id_yields_server_error :
    isValidObjectId "h1" = false ∧
    sampleHotel.hotelId = "h1" ∧ sampleHotel.userId = "u1" ∧
    getHotel "h1" "u1" [sampleHotel] = HandlerResult.serverError ∧
    HandlerResult.serverError ≠ HandlerResult.notFound ∧
    HandlerResult.serverError ≠ HandlerResult.ok sampleHotel := by
  refine ⟨by decide, rfl, rfl, by decide, by decide, by decide⟩

/-- C3 (amended): the business-key fallback of GET /:id runs only when the
primary-key lookup returns no record; a malformed identifier makes that
first lookup throw and the route answer the generic 500, and only a
well-formed identifier matching neither key space yields 404. -/
theorem getHotel_branches (id userId : String) (s : Store) :
    (isValidObjectId id = false → getHotel id userId s = HandlerResult.serverError) ∧
    (∀ hotel, isValidObjectId id = true →
      s.find? (fun r => r.mongoId == id && r.userId == userId) = none →
      s.find? (fun r => r.hotelId == id && r.userId == userId) = some hotel →
      getHotel id userId s = HandlerResult.ok hotel) ∧
    (isValidObjectId id = true →
      s.find? (fun r => r.mongoId == id && r.userId == userId) = none →
      s.find? (fun r => r.hotelId == id && r.userId == userId) = none →
      getHotel id userId s = HandlerResult.notFound) := by
  refine ⟨fun hv => ?_, fun hotel hv h1 h2 => ?_, fun hv h1 h2 => ?_⟩
  · simp [getHotel, hv]
  · simp [getHotel, hv, h1, h2]
  · simp [getHotel, hv, h1, h2]

/-- C3 (witness): the branch characterization at concrete lookups — the
malformed "h1" gives 500 on an empty store, and a well-formed unmatched
identifier gives 404. -/
theorem getHotel_branches_witness :
    getHotel "h1" "u1" ([] : Store) = HandlerResult.serverError ∧
    getHotel oid1 "u1" ([] : Store) = HandlerResult.notFound :=
  ⟨(getHotel_branches "h1" "u1" []).1 (by decide),
   (getHotel_branches oid1 "u1" []).2.2 (by decide) (by decide) (by decide)⟩

/-- C4 (counterexample): POST /add-hotel creates a record whose business key
is "h1"; resolving "h1" for that same owner then answers the generic 500 —
not the created record — because the primary-key lookup of GET /:id throws
on the malformed identifier before the business-key fallback can run. -/
theorem create_then_resolve_by_businessKey_fails :
    (addHotel uploadOk sampleBody [] 0 oid1 []).2 =
      HandlerResult.created (mkHotel sampleBody [] 0 oid1) ∧
    (mkHotel sampleBody [] 0 oid1).hotelId = "h1" ∧
    getHotel "h1" (mkHotel sampleBody [] 0 oid1).userId
        (addHotel uploadOk sampleBody [] 0 oid1 []).1 =
      HandlerResult.serverError := by
  refine ⟨by decide, rfl, by decide⟩

/-- C4 (amended): the create/resolve round trip holds only under guards the
code leaves implicit: the generated primary key is fresh, resolution is
scoped to the created record's own owner, and the business key both parses
as a primary key (otherwise the first lookup of GET /:id throws) and
collides with no primary key and no earlier same-owner business key. -/
theorem create_resolve_roundtrip
    (body : NewHotelBody) (imageFiles : List ImageFile) (upl : Upload)
    (urls : List String) (now : Nat) (freshId : String) (s : Store)
    (hup : uploadImages upl imageFiles = some urls)
    (hvalid : isValidObjectId freshId = true)
    (hfresh : ∀ r ∈ s, (r.mongoId == freshId && r.userId == body.userId) = false)
    (hbkValid : isValidObjectId body.hotelId = true)
    (hbkNotPrimary : ∀ r ∈ s, (r.mongoId == body.hotelId && r.userId == body.userId) = false)
    (hbkFreshNotPrimary : (freshId == body.hotelId) = false)
    (hbkNoEarlier : ∀ r ∈ s, (r.hotelId == body.hotelId && r.userId == body.userId) = false) :
    (addHotel upl body imageFiles now freshId s).2 =
      HandlerResult.created (mkHotel body urls now freshId) ∧
    getHotel freshId body.userId (addHotel upl body imageFiles now freshId s).1 =
      HandlerResult.ok (mkHotel body urls now freshId) ∧
    getHotel body.hotelId body.userId (addHotel upl body imageFiles now freshId s).1 =
      HandlerResult.ok (mkHotel body urls now freshId) := by
  have hstore : (addHotel upl body imageFiles now freshId s).1 =
      s ++ [mkHotel body urls now freshId] := by
    rw [addHotel, hup]
  have hresp : (addHotel upl body imageFiles now freshId s).2 =
      HandlerResult.created (mkHotel body urls now freshId) := by
    rw [addHotel, hup]
  refine ⟨hresp, ?_, ?_⟩
  · rw [hstore, getHotel, if_pos hvalid]
    rw [find?_append_none _ _ _ (find?_none_of_all _ _ hfresh)]
    simp [mkHotel]
  · rw [hstore, getHotel, if_pos hbkValid]
    rw [find?_append_none _ _ _ (find?_none_of_all _ _ hbkNotPrimary)]
    have hR : ((mkHotel body urls now freshId).mongoId == body.hotelId &&
        (mkHotel body urls now freshId).userId == body.userId) = false := by
      simp [mkHotel, hbkFreshNotPrimary]
    simp only [List.find?, hR]
    rw [find?_append_none _ _ _ (find?_none_of_all _ _ hbkNoEarlier)]
    simp [mkHotel]

/-- C4 (witness): the amended round trip at a concrete creation whose
business key is a 12-character string, which the ObjectId cast accepts. -/
theorem create_resolve_roundtrip_witness :
    (addHotel uploadOk sampleBody12 [] 0 oid1 []).2 =
      HandlerResult.created (mkHotel sampleBody12 [] 0 oid1) ∧
    getHotel oid1 sampleBody12.userId (addHotel uploadOk sampleBody12 [] 0 oid1 []).1 =
      HandlerResult.ok (mkHotel sampleBody12 [] 0 oid1) ∧
    getHotel sampleBody12.hotelId sampleBody12.userId
        (addHotel uploadOk sampleBody12 [] 0 oid1 []).1 =
      HandlerResult.ok (mkHotel sampleBody12 [] 0 oid1) :=
  create_resolve_roundtrip sampleBody12 [] uploadOk [] 0 oid1 []
    (by decide) (by decide) (by simp) (by decide) (by simp) (by decide) (by simp)

/-- C5: a Policy B update carrying no image file answers 200 with a record
whose `imageUrls` equals the resolved record's `imageUrls` — even when the
body smuggles in its own image list, since the merge overwrites the body's
`imageUrls` with the computed one — while other patched fields (here the
nightly price) do take effect, and the record is persisted in place. -/
theorem updateHotelB_empty_files_preserves_imageUrls
    (upl : Upload) (hotelId : String) (patch : HotelPatch) (now : Nat)
    (s₁ s₂ s' : Store) (existingHotel h : HotelRecord)
    (hres : resolveB hotelId s₁ = some existingHotel)
    (hrun : updateHotelB upl hotelId patch [] now s₁ s₂ = (s', HandlerResult.ok h)) :
    h.imageUrls = existingHotel.imageUrls ∧
    h.pricePerNight = patch.pricePerNight.getD existingHotel.pricePerNight ∧
    h.lastUpdated = now ∧
    ∃ pre old post, s₂ = pre ++ old :: post ∧ s' = pre ++ h :: post := by
  simp only [updateHotelB, hres, updateHotelBImageUrls, List.isEmpty_nil, if_true] at hrun
  rcases hw : (findOneAndUpdate (matchesKeyB existingHotel hotelId)
      (fun _ => { applyPatch existingHotel patch with
                  imageUrls := existingHotel.imageUrls, lastUpdated := now }) s₂).1
    with _ | rr
  · rw [hw] at hrun
    simp at hrun
  · rw [hw] at hrun
    simp only at hrun
    have hs' : s' = (findOneAndUpdate (matchesKeyB existingHotel hotelId)
        (fun _ => { applyPatch existingHotel patch with
                    imageUrls := existingHotel.imageUrls, lastUpdated := now }) s₂).2 := by
      have := congrArg Prod.fst hrun
      simp at this
      rw [← this]
    have hh : HandlerResult.ok rr.2 = HandlerResult.ok h := by
      have := congrArg Prod.snd hrun
      simpa using this
    injection hh with hh
    have hEq : findOneAndUpdate (matchesKeyB existingHotel hotelId)
        (fun _ => { applyPatch existingHotel patch with
                    imageUrls := existingHotel.imageUrls, lastUpdated := now }) s₂ =
        (some rr, (findOneAndUpdate (matchesKeyB existingHotel hotelId)
          (fun _ => { applyPatch existingHotel patch with
                      imageUrls := existingHotel.imageUrls, lastUpdated := now }) s₂).2) := by
      rw [← hw]
    obtain ⟨pre, post, e1, e2, e3, e4, e5⟩ := findOneAndUpdate_some _ _ _ _ _ hEq
    have hhU : h = { applyPatch existingHotel patch with
        imageUrls := existingHotel.imageUrls, lastUpdated := now } := by
      rw [← hh, e4]
    subst hhU
    refine ⟨rfl, by simp [applyPatch], rfl, pre, rr.1, post, e1, ?_⟩
    rw [hs', e5]

/-- C5 (witness): the preservation statement at a concrete request whose
body injects both a price and an image list. -/
theorem updateHotelB_empty_files_preserves_imageUrls_witness :
    ({ sampleHotel with pricePerNight := 120, lastUpdated := 5 } : HotelRecord).imageUrls =
      sampleHotel.imageUrls ∧
    ({ sampleHotel with pricePerNight := 120, lastUpdated := 5 } : HotelRecord).pricePerNight =
      (patchInject.pricePerNight).getD sampleHotel.pricePerNight ∧
    ({ sampleHotel with pricePerNight := 120, lastUpdated := 5 } : HotelRecord).lastUpdated = 5 ∧
    ∃ pre old post, [sampleHotel] = pre ++ old :: post ∧
      [({ sampleHotel with pricePerNight := 120, lastUpdated := 5 } : HotelRecord)] =
        pre ++ ({ sampleHotel with pricePerNight := 120, lastUpdated := 5 } : HotelRecord) :: post :=
  updateHotelB_empty_files_preserves_imageUrls uploadOk oid1 patchInject 5
    [sampleHotel] [sampleHotel] [{ sampleHotel with pricePerNight := 120, lastUpdated := 5 }]
    sampleHotel { sampleHotel with pricePerNight := 120, lastUpdated := 5 }
    (by decide) (by decide)

/-- C6: once the Policy B resolve has succeeded and the image step has
produced its URL list, the persistence `findOneAndUpdate` filters on the
re-derived key field (`_id` exactly when the resolved record's `_id` equals
the supplied identifier, `hotelId` otherwise, as `matchesKeyB` states): if
nothing in the store as of the write matches that key the route answers 404
and writes nothing, and a 200 answer rewrites precisely the first record
matching that key. -/
theorem updateHotelB_persistence_keyed_on_matched_field
    (upl : Upload) (hotelId : String) (patch : HotelPatch)
    (imageFiles : List ImageFile) (now : Nat) (s₁ s₂ : Store)
    (existingHotel : HotelRecord) (updatedImageUrls : List String)
    (hres : resolveB hotelId s₁ = some existingHotel)
    (hurls : updateHotelBImageUrls upl existingHotel imageFiles = some updatedImageUrls) :
    ((∀ r ∈ s₂, matchesKeyB existingHotel hotelId r = false) →
      updateHotelB upl hotelId patch imageFiles now s₁ s₂ = (s₂, HandlerResult.notFound)) ∧
    (∀ s' h, updateHotelB upl hotelId patch imageFiles now s₁ s₂ =
        (s', HandlerResult.ok h) →
      ∃ pre r post, s₂ = pre ++ r :: post ∧ matchesKeyB existingHotel hotelId r = true ∧
        (∀ x ∈ pre, matchesKeyB existingHotel hotelId x = false) ∧
        s' = pre ++ h :: post) := by
  constructor
  · intro hall
    have hnone := findOneAndUpdate_none (matchesKeyB existingHotel hotelId)
      (fun _ => { applyPatch existingHotel patch with
                  imageUrls := updatedImageUrls, lastUpdated := now }) s₂ hall
    simp [updateHotelB, hres, hurls, hnone]
  · intro s' h hrun
    simp only [updateHotelB, hres, hurls] at hrun
    rcases hw : (findOneAndUpdate (matchesKeyB existingHotel hotelId)
        (fun _ => { applyPatch existingHotel patch with
                    imageUrls := updatedImageUrls, lastUpdated := now }) s₂).1
      with _ | rr
    · rw [hw] at hrun
      simp at hrun
    · rw [hw] at hrun
      simp only at hrun
      have hs' : s' = (findOneAndUpdate (matchesKeyB existingHotel hotelId)
          (fun _ => { applyPatch existingHotel patch with
                      imageUrls := updatedImageUrls, lastUpdated := now }) s₂).2 := by
        have := congrArg Prod.fst hrun
        simp at this
        rw [← this]
      have hh : HandlerResult.ok rr.2 = HandlerResult.ok h := by
        have := congrArg Prod.snd hrun
        simpa using this
      injection hh with hh
      have hEq : findOneAndUpdate (matchesKeyB existingHotel hotelId)
          (fun _ => { applyPatch existingHotel patch with
                      imageUrls := updatedImageUrls, lastUpdated := now }) s₂ =
          (some rr, (findOneAndUpdate (matchesKeyB existingHotel hotelId)
            (fun _ => { applyPatch existingHotel patch with
                        imageUrls := updatedImageUrls, lastUpdated := now }) s₂).2) := by
        rw [← hw]
      obtain ⟨pre, post, e1, e2, e3, e4, e5⟩ := findOneAndUpdate_some _ _ _ _ _ hEq
      refine ⟨pre, rr.1, post, e1, e2, e3, ?_⟩
      rw [hs', e5, ← e4, hh]

/-- C6 (witness): the 404-on-race statement at a concrete request whose
target was deleted between the resolve and the write. -/
theorem updateHotelB_persistence_keyed_on_matched_field_witness :
    updateHotelB uploadOk oid1 patchPrice [] 5 [sampleHotel] ([] : Store) =
      (([] : Store), HandlerResult.notFound) :=
  (updateHotelB_persistence_keyed_on_matched_field uploadOk oid1 patchPrice [] 5
      [sampleHotel] [] sampleHotel sampleHotel.imageUrls
      (by decide) (by decide)).1 (by simp)

/-- C7: POST /add-hotel uploads the whole batch — on success one URL per
input file with the order preserved — and persists exactly one new record
carrying those URLs as its `imageUrls` and the call time as `lastUpdated`;
when any single upload fails the store is left untouched and the route
answers the generic 500. -/
theorem addHotel_spec (upl : Upload) (body : NewHotelBody)
    (imageFiles : List ImageFile) (now : Nat) (freshId : String) (s : Store) :
    ((∃ f ∈ imageFiles, upl f = none) →
      addHotel upl body imageFiles now freshId s = (s, HandlerResult.serverError)) ∧
    (∀ urls, uploadImages upl imageFiles = some urls →
      urls.length = imageFiles.length ∧
      (∀ (i : Nat) (h1 : i < imageFiles.length) (h2 : i < urls.length),
        upl (imageFiles.get ⟨i, h1⟩) = some (urls.get ⟨i, h2⟩)) ∧
      addHotel upl body imageFiles now freshId s =
        (s ++ [mkHotel body urls now freshId],
          HandlerResult.created (mkHotel body urls now freshId)) ∧
      (mkHotel body urls now freshId).imageUrls = urls ∧
      (mkHotel body urls now freshId).lastUpdated = now) := by
  constructor
  · intro hex
    rw [addHotel, uploadImages_eq_none upl imageFiles hex]
  · intro urls hup
    exact ⟨uploadImages_length upl imageFiles urls hup,
      uploadImages_get upl imageFiles urls hup,
      by rw [addHotel, hup], rfl, rfl⟩

/-- C7 (witness): the creation contract at a concrete failing batch and at a
concrete successful one. -/
theorem addHotel_spec_witness :
    addHotel uploadFail sampleBody ["f1"] 0 oid1 [] =
      (([] : Store), HandlerResult.serverError) ∧
    addHotel uploadOk sampleBody ["f1"] 0 oid1 [] =
      ([mkHotel sampleBody ["url-f1"] 0 oid1],
        HandlerResult.created (mkHotel sampleBody ["url-f1"] 0 oid1)) :=
  ⟨(addHotel_spec uploadFail sampleBody ["f1"] 0 oid1 []).1
      ⟨"f1", by decide, by decide⟩,
   ((addHotel_spec uploadOk sampleBody ["f1"] 0 oid1 []).2 ["url-f1"] (by decide)).2.2.1⟩

/-- C8 (counterexample): POST /changePrice mutates a record — its nightly
price goes from 100 to 250 and the route answers 200 — while its
`lastUpdated` stays at its old value 0; the filter-and-update document of
this handler never touches `lastUpdated`, so not every mutation performed by
the backend stamps it. -/
theorem changePrice_leaves_lastUpdated_unchanged :
    sampleHotel.pricePerNight = 100 ∧ sampleHotel.lastUpdated = 0 ∧
    changePrice "u1" 250 [sampleHotel] =
      ([{ sampleHotel with pricePerNight := 250 }], HandlerResult.okNoBody) ∧
    ({ sampleHotel with pricePerNight := 250 } : HotelRecord).lastUpdated = 0 := by
  refine ⟨rfl, rfl, by decide, rfl⟩

/-- C8 (amended): creation, the Policy A update and the Policy B update all
stamp the record they answer with (and persist) with the mutation time,
while POST /changePrice leaves every record's `lastUpdated` exactly as it
was. -/
theorem mutations_lastUpdated_behavior
    (upl : Upload) (body : NewHotelBody) (imageFiles : List ImageFile)
    (now : Nat) (freshId hotelId userId : String) (patch : HotelPatch)
    (s s₁ s₂ : Store) (newPrice : Int) (h : HotelRecord) :
    ((addHotel upl body imageFiles now freshId s).2 = HandlerResult.created h →
      h.lastUpdated = now) ∧
    ((updateHotelA upl hotelId userId patch imageFiles now s).2 = HandlerResult.created h →
      h.lastUpdated = now) ∧
    ((updateHotelB upl hotelId patch imageFiles now s₁ s₂).2 = HandlerResult.ok h →
      h.lastUpdated = now) ∧
    (changePrice hotelId newPrice s).1.map HotelRecord.lastUpdated =
      s.map HotelRecord.lastUpdated := by
  refine ⟨?_, ?_, ?_, ?_⟩
  · intro hresp
    rw [addHotel] at hresp
    cases hup : uploadImages upl imageFiles with
    | none => rw [hup] at hresp; simp at hresp
    | some urls =>
      rw [hup] at hresp
      simp only at hresp
      injection hresp with hresp
      rw [← hresp]
      rfl
  · intro hresp
    rw [updateHotelA] at hresp
    cases hm : (updateHotelAPhase1 hotelId userId patch now s).1 with
    | none => rw [hm] at hresp; simp at hresp
    | some rr =>
      rw [hm] at hresp
      cases hup : uploadImages upl imageFiles with
      | none => rw [hup] at hresp; simp at hresp
      | some urls =>
        rw [hup] at hresp
        simp only at hresp
        injection hresp with hresp
        rw [← hresp]
        have := (updateHotelAPhase1_some hotelId userId patch now s rr hm).1
        rw [this]
  · intro hresp
    cases hrb : resolveB hotelId s₁ with
    | none => simp [updateHotelB, hrb] at hresp
    | some existingHotel =>
      cases hurls : updateHotelBImageUrls upl existingHotel imageFiles with
      | none => simp [updateHotelB, hrb, hurls] at hresp
      | some updatedImageUrls =>
        simp only [updateHotelB, hrb, hurls] at hresp
        rcases hw : (findOneAndUpdate (matchesKeyB existingHotel hotelId)
            (fun _ => { applyPatch existingHotel patch with
                        imageUrls := updatedImageUrls, lastUpdated := now }) s₂).1
          with _ | rr
        · rw [hw] at hresp; simp at hresp
        · rw [hw] at hresp
          simp only at hresp
          injection hresp with hresp
          have hEq : findOneAndUpdate (matchesKeyB existingHotel hotelId)
              (fun _ => { applyPatch existingHotel patch with
                          imageUrls := updatedImageUrls, lastUpdated := now }) s₂ =
              (some rr, (findOneAndUpdate (matchesKeyB existingHotel hotelId)
                (fun _ => { applyPatch existingHotel patch with
                            imageUrls := updatedImageUrls, lastUpdated := now }) s₂).2) := by
            rw [← hw]
          obtain ⟨pre, post, e1, e2, e3, e4, e5⟩ := findOneAndUpdate_some _ _ _ _ _ hEq
          rw [← hresp, e4]
  · have := findOneAndUpdate_map_invariant (fun r => r.userId == hotelId)
      (fun r => { r with pricePerNight := newPrice }) HotelRecord.lastUpdated
      (fun r => rfl) s
    rcases hw : (findOneAndUpdate (fun r => r.userId == hotelId)
        (fun r => { r with pricePerNight := newPrice }) s).1 with _ | rr
    · simp [changePrice, hw, this]
    · simp [changePrice, hw, this]

/-- C8 (witness): the stamping statement at a concrete creation, and the
non-stamping of changePrice at a concrete store. -/
theorem mutations_lastUpdated_behavior_witness :
    (mkHotel sampleBody ["url-f1"] 7 oid1).lastUpdated = 7 ∧
    (changePrice "u1" 250 [sampleHotel]).1.map HotelRecord.lastUpdated =
      [sampleHotel].map HotelRecord.lastUpdated :=
  ⟨(mutations_lastUpdated_behavior uploadOk sampleBody ["f1"] 7 oid1 oid1 "u1" {}
      [] [] [] 0 (mkHotel sampleBody ["url-f1"] 7 oid1)).1 (by decide),
   (mutations_lastUpdated_behavior uploadOk sampleBody ["f1"] 7 oid1 "u1" "u1" {}
      [sampleHotel] [] [] 250 sampleHotel).2.2.2⟩

/-- C9 (counterexample): the multer stage of PUT /:hotelId is configured
with no maximum file count, so a request carrying 7 image files passes
through to the handler there, while the create route and the Policy B route
both reject 7 — not every image-accepting operation caps the batch at 6. -/
theorem updateHotelA_accepts_more_than_six_files :
    acceptsFileCount updateHotelAMaxImageFiles 7 = true ∧
    acceptsFileCount addHotelMaxImageFiles 7 = false ∧
    acceptsFileCount updateHotelBMaxImageFiles 7 = false := by
  refine ⟨rfl, by decide, by decide⟩

/-- C9 (amended): POST /add-hotel and PUT /update-hotel/:hotelId accept a
batch exactly when it has at most 6 files; PUT /:hotelId accepts a batch of
any size. -/
theorem image_file_count_limits (n : Nat) :
    (n ≤ 6 → acceptsFileCount addHotelMaxImageFiles n = true) ∧
    (6 < n → acceptsFileCount addHotelMaxImageFiles n = false) ∧
    (n ≤ 6 → acceptsFileCount updateHotelBMaxImageFiles n = true) ∧
    (6 < n → acceptsFileCount updateHotelBMaxImageFiles n = false) ∧
    acceptsFileCount updateHotelAMaxImageFiles n = true := by
  refine ⟨fun hn => ?_, fun hn => ?_, fun hn => ?_, fun hn => ?_, rfl⟩
  · exact decide_eq_true hn
  · exact decide_eq_false (Nat.not_le.mpr hn)
  · exact decide_eq_true hn
  · exact decide_eq_false (Nat.not_le.mpr hn)

/-- C9 (witness): the limit statement at concrete batch sizes 3 and 7. -/
theorem image_file_count_limits_witness :
    acceptsFileCount addHotelMaxImageFiles 3 = true ∧
    acceptsFileCount updateHotelBMaxImageFiles 7 = false ∧
    acceptsFileCount updateHotelAMaxImageFiles 7 = true :=
  ⟨(image_file_count_limits 3).1 (by decide),
   (image_file_count_limits 7).2.2.2.1 (by decide),
   (image_file_count_limits 7).2.2.2.2⟩

/-- C10: POST /changePrice filters on `{userId: hotelId}`: the store keeps
its length, every record whose `userId` differs from the supplied identifier
is left untouched at its position — even one whose `_id` or `hotelId` equals
it — and a 200 answer means exactly that the first record whose `userId`
equals the identifier had its `pricePerNight` replaced. -/
theorem changePrice_only_matches_owner_field
    (hotelId : String) (newPrice : Int) (s : Store) :
    (changePrice hotelId newPrice s).1.length = s.length ∧
    (∀ (i : Nat) (r : HotelRecord), s[i]? = some r → r.userId ≠ hotelId →
      (changePrice hotelId newPrice s).1[i]? = some r) ∧
    (∀ s' res, changePrice hotelId newPrice s = (s', res) →
      res = HandlerResult.okNoBody →
      ∃ pre r post, s = pre ++ r :: post ∧ r.userId = hotelId ∧
        (∀ x ∈ pre, x.userId ≠ hotelId) ∧
        s' = pre ++ { r with pricePerNight := newPrice } :: post) := by
  have hstore : (changePrice hotelId newPrice s).1 =
      (findOneAndUpdate (fun r => r.userId == hotelId)
        (fun r => { r with pricePerNight := newPrice }) s).2 := by
    rcases hw : (findOneAndUpdate (fun r => r.userId == hotelId)
        (fun r => { r with pricePerNight := newPrice }) s).1 with _ | rr
    · simp [changePrice, hw]
    · simp [changePrice, hw]
  refine ⟨by rw [hstore, findOneAndUpdate_length], ?_, ?_⟩
  · intro i r hi hne
    rw [hstore]
    exact findOneAndUpdate_getElem_of_not_pred _ _ s i r hi
      (beq_eq_false_iff_ne.mpr hne)
  · intro s' res hrun hok
    subst hok
    rcases hw : (findOneAndUpdate (fun r => r.userId == hotelId)
        (fun r => { r with pricePerNight := newPrice }) s).1 with _ | rr
    · rw [changePrice] at hrun
      rw [hw] at hrun
      simp at hrun
    · rw [changePrice] at hrun
      rw [hw] at hrun
      simp only at hrun
      have hs' : s' = (findOneAndUpdate (fun r => r.userId == hotelId)
          (fun r => { r with pricePerNight := newPrice }) s).2 := by
        have := congrArg Prod.fst hrun
        simp at this
        rw [← this]
      have hEq : findOneAndUpdate (fun r => r.userId == hotelId)
          (fun r => { r with pricePerNight := newPrice }) s =
          (some rr, (findOneAndUpdate (fun r => r.userId == hotelId)
            (fun r => { r with pricePerNight := newPrice }) s).2) := by
        rw [← hw]
      obtain ⟨pre, post, e1, e2, e3, e4, e5⟩ := findOneAndUpdate_some _ _ _ _ _ hEq
      refine ⟨pre, rr.1, post, e1, by simpa using e2, ?_, by rw [hs', e5]⟩
      intro x hx
      simpa using e3 x hx

/-- C10 (witness): a record whose `_id` and `hotelId` both equal the
supplied identifier but whose `userId` differs survives changePrice
unchanged. -/
theorem changePrice_only_matches_owner_field_witness :
    (changePrice "u1" 999 [sampleDecoy]).1[0]? = some sampleDecoy :=
  (changePrice_only_matches_owner_field "u1" 999 [sampleDecoy]).2.1 0 sampleDecoy
    (by decide) (by decide)

end Saavi
